import Mathlib

/-!
# Verification of the Got-Next recommendation harvesting engine

Shallow embedding of the core of `src/server/redditServiceV2.js` (class
`ImprovedRedditService`), together with proofs of the frozen claims about it.

Modelling conventions:
* JavaScript strings are Lean `String`s; the JS string primitives
  (`toLowerCase`, `trim`, `includes`, `split`, regex tests on literal
  pieces) are defined below over `s.toList` so that they evaluate by kernel
  reduction.
* JavaScript numbers are embedded as `ℚ` (confidences, vote averages) or
  `Int`/`ℕ` (relevance scores, counts); `Math.log` is transcendental, so the
  derived `finalScore` value is expressed over `ℝ` with `Real.log`.
* Network transport is a parameter: fallible HTTP calls are inputs of type
  `Except String _` (the `catch` branches of the source become `match`es).
* A JavaScript `Map` keyed by catalog id is a function `ℕ → Option _`.
-/

namespace GotNext

/-- `needle` occurs as a contiguous infix of `haystack` (char lists). -/
def infixOfCh (pat s : List Char) : Bool :=
  match s with
  | [] => pat.isEmpty
  | _ :: tl => pat.isPrefixOf s || infixOfCh pat tl

/-- `haystack.includes(needle)` for JS strings: substring containment. -/
def containsSub (s pat : String) : Bool :=
  infixOfCh pat.toList s.toList

/-- `s.toLowerCase()`. -/
def jsToLower (s : String) : String :=
  String.mk (s.toList.map Char.toLower)

/-- `s.trim()`: whitespace stripped from both ends. -/
def jsTrim (s : String) : String :=
  String.mk (((s.toList.dropWhile Char.isWhitespace).reverse.dropWhile
    Char.isWhitespace).reverse)

/-- Helper for regex `p₁.*p₂` tests: drop everything up to and including the
leftmost occurrence of `pat` in `s`; `none` if `pat` never occurs.  Taking the
leftmost occurrence is complete for pure existence tests of `p₁.*p₂…`. -/
def dropThroughFirst (s pat : List Char) : Option (List Char) :=
  match s with
  | [] => if pat = [] then some [] else none
  | c :: tl =>
    if pat.isPrefixOf (c :: tl) then some ((c :: tl).drop pat.length)
    else dropThroughFirst tl pat

/-- `new RegExp("p₁.*p₂.*…", 'i').test(s)` for literal pieces `pᵢ`:
the pieces occur in `s` in order, without overlapping. -/
def seqContains (s : List Char) (ps : List (List Char)) : Bool :=
  match ps with
  | [] => true
  | p :: rest =>
    match dropThroughFirst s p with
    | some remainder => seqContains remainder rest
    | none => false

/-- String-level wrapper for `seqContains`. -/
def seqContainsStr (s : String) (ps : List String) : Bool :=
  seqContains s.toList (ps.map String.toList)

/-- `s.split(/\s+/)` as used in `calculateMatchConfidence`: the source only
applies it to trimmed strings, where it returns the maximal whitespace-free
runs — except on `""`, where the JS result is `[""]`. -/
def wsTokens (s : String) : List String :=
  if s = "" then [""]
  else ((s.toList.splitOnP Char.isWhitespace).filter (fun t => t ≠ [])).map
    String.mk

/-- One alternative of `s.replace(/^(the|a|an)\s+/i, '')`: if `s` starts with
the article `art` followed by at least one whitespace character, return the
rest with the whole (greedy `\s+`) whitespace run removed. -/
def stripArticleOne (s art : List Char) : Option (List Char) :=
  if art.isPrefixOf s then
    match s.drop art.length with
    | c :: rest =>
      if c.isWhitespace then some ((c :: rest).dropWhile Char.isWhitespace)
      else none
    | [] => none
  else none

/-- `s.replace(/^(the|a|an)\s+/i, '')` on an already-lowercased string,
with the regex's alternation order `the`, `a`, `an`. -/
def stripLeadingArticle (s : String) : String :=
  match stripArticleOne s.toList "the".toList with
  | some r => String.mk r
  | none =>
    match stripArticleOne s.toList "a".toList with
    | some r => String.mk r
    | none =>
      match stripArticleOne s.toList "an".toList with
      | some r => String.mk r
      | none => s

/-- The token-set overlap branch of `calculateMatchConfidence`
(lines 308–315): distinct shared tokens of length > 2, divided by the larger
token-set size (`Math.max(eWords.size, tWords.size) || 1`). -/
def tokenOverlap (cleanE cleanT : String) : ℚ :=
  (((wsTokens cleanE).toFinset.filter
      (fun w => w ∈ (wsTokens cleanT).toFinset ∧ 2 < w.length)).card : ℚ) /
  (if max (wsTokens cleanE).toFinset.card (wsTokens cleanT).toFinset.card = 0
   then 1
   else ((max (wsTokens cleanE).toFinset.card
          (wsTokens cleanT).toFinset.card : ℕ) : ℚ))

/-- `calculateMatchConfidence(extracted, tmdbTitle)` (lines 298–316).
The guard `!extracted || !tmdbTitle` is the JS falsy test on strings,
i.e. emptiness. -/
def calculateMatchConfidence (extracted tmdbTitle : String) : ℚ :=
  if extracted = "" ∨ tmdbTitle = "" then 0
  else if jsTrim (jsToLower extracted) = jsTrim (jsToLower tmdbTitle) then 1
  else if stripLeadingArticle (jsTrim (jsToLower extracted)) =
          stripLeadingArticle (jsTrim (jsToLower tmdbTitle)) then 19/20
  else tokenOverlap (stripLeadingArticle (jsTrim (jsToLower extracted)))
                    (stripLeadingArticle (jsTrim (jsToLower tmdbTitle)))

/-! ## Post relevance filter (`calculatePostRelevance`, lines 318–380) -/

/-- `searchMovieTitle.replace(/\s*\(\d{4}\)\s*$/, '')`: remove a trailing
"(year)" suffix (four digits in parentheses, with surrounding whitespace). -/
def stripYearSuffix (s : String) : String :=
  match (s.toList.reverse.dropWhile Char.isWhitespace) with
  | ')' :: d4 :: d3 :: d2 :: d1 :: '(' :: rest =>
    if d1.isDigit ∧ d2.isDigit ∧ d3.isDigit ∧ d4.isDigit then
      String.mk ((rest.dropWhile Char.isWhitespace).reverse)
    else s
  | _ => s

/-- The normalised query string of `calculatePostRelevance` (lines 321–322):
the target title with any trailing "(year)" stripped, trimmed, lowercased. -/
def relevanceQuery (searchMovieTitle : String) : String :=
  jsToLower (jsTrim (stripYearSuffix searchMovieTitle))

/-- The `killPatterns` array (lines 357–366), with each regex rendered as the
ordered list of its literal pieces separated by `.*` (`scenes?`/`moments?`
match exactly when `scene`/`moment` occurs, and the interpolated query is
taken literally, which is exact whenever the title contains no regex
metacharacters). -/
def killPatterns (queryLower : String) : List (List String) :=
  [["best", "movies with"],
   ["movies with", queryLower],
   ["films with", queryLower],
   ["featuring", queryLower],
   [queryLower, "scene"],
   [queryLower, "moment"],
   ["great", queryLower, "movies"],
   [queryLower, "in", "movies"]]

/-- The loop over `killPatterns` (lines 368–372). -/
def matchesKillPattern (titleLower queryLower : String) : Bool :=
  (killPatterns queryLower).any (fun ps => seqContainsStr titleLower ps)

/-- The `badKeywords` array (line 374). -/
def badKeywords : List String :=
  ["unlike", "opposite", "different from", "not as good", "nothing like",
   "not like"]

/-- `calculatePostRelevance(postTitle, searchMovieTitle, releaseYear)`
(lines 318–380).  Returns an integer score; the harvest loop treats a post as
relevant iff the score is positive. -/
def calculatePostRelevance (postTitle searchMovieTitle : String)
    (releaseYear : Option String) : Int :=
  let titleLower := jsToLower postTitle
  let queryLower := relevanceQuery searchMovieTitle
  let hasContext := containsSub titleLower "like" ||
    containsSub titleLower "similar" || containsSub titleLower "recommend"
  let quoted : Int :=
    if containsSub titleLower ("\"" ++ queryLower ++ "\"") && hasContext
    then 200 else 0
  let yearBonus : Int :=
    match releaseYear with
    | some ry =>
      if containsSub titleLower ry && containsSub titleLower queryLower &&
         hasContext then 150
      else if containsSub titleLower ry && containsSub titleLower queryLower
      then 20 else 0
    | none => 0
  if containsSub titleLower queryLower then
    let phrases : Int :=
      (if containsSub titleLower ("if you liked " ++ queryLower) then 100 else 0) +
      (if containsSub titleLower ("similar to " ++ queryLower) then 90 else 0) +
      (if containsSub titleLower ("movies like " ++ queryLower) then 85 else 0) +
      (if containsSub titleLower (queryLower ++ " recommendations") then 80 else 0) +
      (if containsSub titleLower "like" then 30 else 0) +
      (if containsSub titleLower "recommend" then 25 else 0) +
      (if containsSub titleLower "suggestions" then 20 else 0)
    if matchesKillPattern titleLower queryLower then -1000
    else quoted + yearBonus + phrases -
      500 * ((badKeywords.filter (fun k => containsSub titleLower k)).length : Int)
  else -1000

/-! ## Metadata validator (`searchAndValidateTMDB`, lines 64–111)

The network transport is a parameter: the claims about this function are
about what it does with a given catalog response (`Except.ok raw`) or with a
failed request/parse (`Except.error e`).  The `getCached` layer (lines 49–59)
is transparent to these claims: on a miss it stores exactly the value the
fetcher computed (including the `[]` produced by the `catch`), and on a hit it
returns a previously stored value, so the uncached computation is modelled. -/

/-- One entry of a TMDB search response, with the fields the engine reads.
Optional string fields model absent (`undefined`) properties; the JS falsy
test on them also rejects the empty string. -/
structure TmdbEntry where
  id : ℕ
  title : Option String
  name : Option String
  poster_path : Option String
  vote_average : ℚ
  release_date : Option String
  first_air_date : Option String
  deriving DecidableEq, Repr

/-- JS truthiness of an optional string property: present and non-empty. -/
def jsTruthyStr (o : Option String) : Bool :=
  match o with
  | none => false
  | some s => s ≠ ""

/-- The quality filter of lines 88–92: a display name for the content type,
a poster, and a strictly positive vote average. -/
def qualityFilter (contentType : String) (m : TmdbEntry) : Bool :=
  (if contentType = "tv" then jsTruthyStr m.name else jsTruthyStr m.title) &&
  jsTruthyStr m.poster_path && decide (0 < m.vote_average)

/-- `m.release_date ? m.release_date.split('-')[0] : null` (lines 95–97):
the first `'-'`-separated component is the prefix before the first dash. -/
def entryReleaseYear (m : TmdbEntry) : Option String :=
  match m.release_date with
  | none => none
  | some d =>
    if d = "" then none
    else some (String.mk (d.toList.takeWhile (fun c => c ≠ '-')))

/-- `searchAndValidateTMDB(title, year, contentType)` (lines 64–111), as a
function of the catalog transport outcome `response`.  A falsy (empty) title
short-circuits to `[]`; a transport/parse error is caught and yields `[]`;
otherwise the response entries are quality-filtered, an exact-year match (if
a year was supplied and one exists) is moved to the front with all entries
of the same id removed behind it, and the list is capped at 3. -/
def searchAndValidateTMDB (title : String) (year : Option String)
    (contentType : String) (response : Except String (List TmdbEntry)) :
    List TmdbEntry :=
  if title = "" then []
  else
    match response with
    | .error _ => []
    | .ok raw =>
      let results := raw.filter (qualityFilter contentType)
      match year with
      | some y =>
        if results.length > 0 then
          match results.find? (fun m => entryReleaseYear m = some y) with
          | some exactYearMatch =>
            (exactYearMatch ::
              results.filter (fun m => m.id ≠ exactYearMatch.id)).take 3
          | none => results.take 3
        else results.take 3
      | none => results.take 3

/-! ## Harvest batch admission (`getQuickRecommendations`, lines 510–516) -/

/-- A discussion-platform search result post, with the field the relevance
stage reads (`post?.title || ''` makes a missing title the empty string, so
the title is total here). -/
structure RedditPost where
  title : String
  deriving DecidableEq, Repr

/-- A post paired with its relevance score (lines 512–514). -/
structure ScoredPost where
  post : RedditPost
  relevance : Int
  deriving DecidableEq, Repr

/-- Lines 510–516: score every post of the batch, drop non-positive scores,
sort descending by relevance (`.sort((a, b) => b.relevance - a.relevance)`). -/
def scoreAndFilterBatch (batch : List RedditPost) (movieTitle : String)
    (releaseYear : Option String) : List ScoredPost :=
  ((batch.map (fun post =>
      { post := post
        relevance := calculatePostRelevance post.title movieTitle releaseYear }))
    |>.filter (fun item => 0 < item.relevance))
    |>.mergeSort (fun a b => b.relevance ≤ a.relevance)

/-! ## Recommendation aggregator (`addOrUpdateRecommendation`, lines 889–923)

The JS recommendation `Map` keyed by TMDB id is modelled as a function
`ℕ → Option Rec`; the record spreads `movie.tmdbMatch`, kept here as the
nested `entry` field.  The stored `finalScore` float is recomputed from the
current `mentions` / `avgConfidence` / `vote_average` on *every* update
(lines 918–920) and is read only after an update, so it is embedded as the
derived function `finalScore` below, over `ℝ` because `Math.log` is the
natural logarithm.  The `subredditsSet` scratch `Set` (created from
`subreddits`, extended, written back as an `Array`, then deleted, lines
908–922) amounts to appending the subreddit when it is not yet present. -/

/-- Context of one mention (`{source, subreddit, score, url}`). -/
structure Context where
  source : String
  subreddit : String
  score : Int
  url : String
  deriving DecidableEq, Repr

/-- A validated match as produced by the extractor
(`{extractedTitle, tmdbMatch, confidence}`). -/
structure ValidatedMatch where
  extractedTitle : String
  tmdbMatch : TmdbEntry
  confidence : ℚ
  deriving DecidableEq, Repr

/-- A recommendation record (the aggregator's map values). -/
structure Rec where
  entry : TmdbEntry
  mentions : ℕ
  totalConfidence : ℚ
  avgConfidence : ℚ
  contexts : List Context
  subreddits : List String
  sources : List String
  redditUrls : List String
  deriving DecidableEq, Repr

/-- The recommendation map. -/
def RecMap : Type := ℕ → Option Rec

/-- The empty recommendation map (`new Map()`). -/
def emptyRecMap : RecMap := fun _ => none

/-- The per-id record update of `addOrUpdateRecommendation`: create on first
mention (lines 893–902), accumulate on later ones (lines 903–916), then
recompute `avgConfidence` (line 919; `rec.mentions ? … : 0`). -/
def updateRecOpt (existing : Option Rec) (movie : ValidatedMatch)
    (context : Context) : Rec :=
  let updated : Rec :=
    match existing with
    | none =>
      { entry := movie.tmdbMatch
        mentions := 1
        totalConfidence := movie.confidence
        avgConfidence := 0
        contexts := [context]
        subreddits := [context.subreddit]
        sources := [context.source]
        redditUrls := [context.url] }
    | some r =>
      { r with
        mentions := r.mentions + 1
        totalConfidence := r.totalConfidence + movie.confidence
        subreddits :=
          if context.subreddit ∈ r.subreddits then r.subreddits
          else r.subreddits ++ [context.subreddit]
        sources := r.sources ++ [context.source]
        redditUrls :=
          if context.url ∈ r.redditUrls then r.redditUrls
          else r.redditUrls ++ [context.url]
        contexts :=
          if r.contexts.length < 3 then r.contexts ++ [context]
          else r.contexts }
  { updated with
    avgConfidence :=
      if updated.mentions = 0 then 0
      else updated.totalConfidence / (updated.mentions : ℚ) }

/-- `addOrUpdateRecommendation(map, movie, context)` (lines 889–923); the
guard `!movie?.tmdbMatch?.id` skips a falsy (zero) id. -/
def addOrUpdateRecommendation (map : RecMap) (movie : ValidatedMatch)
    (context : Context) : RecMap :=
  if movie.tmdbMatch.id = 0 then map
  else fun i =>
    if i = movie.tmdbMatch.id then
      some (updateRecOpt (map movie.tmdbMatch.id) movie context)
    else map i

/-- `rec.finalScore = rec.avgConfidence * Math.log(rec.mentions + 1) *
((rec.vote_average || 0) / 10)` (line 920), as the value the stored float
always holds after an update. -/
noncomputable def finalScore (r : Rec) : ℝ :=
  (r.avgConfidence : ℝ) * Real.log ((r.mentions : ℝ) + 1) *
    ((r.entry.vote_average : ℝ) / 10)

/-- A sequence of merges applied to a recommendation map, one
`addOrUpdateRecommendation` call per `(movie, context)` pair, in list order. -/
def applyMerges (pairs : List (ValidatedMatch × Context)) (map : RecMap) :
    RecMap :=
  pairs.foldl (fun m p => addOrUpdateRecommendation m p.1 p.2) map

/-- The record invariant the aggregator maintains for every stored record:
at least one mention, and `avgConfidence` equal to
`totalConfidence / mentions` (the recompute of line 919). -/
def RecMapInv (m : RecMap) : Prop :=
  ∀ id r, m id = some r →
    1 ≤ r.mentions ∧
    r.avgConfidence = r.totalConfidence / (r.mentions : ℚ)

/-- A concrete catalog entry with `vote_average = 7` for claim C7's
two-merge example. -/
def entryVote7 : TmdbEntry :=
  { id := 603, title := some "The Matrix", name := none,
    poster_path := some "/m.jpg", vote_average := 7,
    release_date := some "1999-03-30", first_air_date := none }

/-- The example match of claim C7: confidence `0.9` for `entryVote7`. -/
def matchConf09 : ValidatedMatch :=
  { extractedTitle := "Matrix", tmdbMatch := entryVote7, confidence := 9/10 }

/-- First mention context of the C7 example. -/
def ctxA : Context :=
  { source := "comment", subreddit := "MovieSuggestions", score := 5,
    url := "https://reddit.com/r/MovieSuggestions/a" }

/-- Second mention context of the C7 example. -/
def ctxB : Context :=
  { source := "ai-batch", subreddit := "MovieSuggestions", score := 10,
    url := "https://reddit.com/r/MovieSuggestions/a" }

/-- The C7 example's map: the same `(catalogId, confidence 0.9,
voteAverage 7)` match merged twice into an empty map. -/
def exampleDoubleMerge : RecMap :=
  addOrUpdateRecommendation
    (addOrUpdateRecommendation emptyRecMap matchConf09 ctxA) matchConf09 ctxB

/-- The per-id view of a merge sequence: each step feeds the current slot
value through `updateRecOpt`. -/
def updSeq (ps : List (ValidatedMatch × Context)) (o : Option Rec) :
    Option Rec :=
  ps.foldl (fun acc p => some (updateRecOpt acc p.1 p.2)) o

/-- Mention count of a slot (0 when empty). -/
def oMentions (o : Option Rec) : ℕ :=
  match o with
  | none => 0
  | some r => r.mentions

/-- Total confidence of a slot (0 when empty). -/
def oTotal (o : Option Rec) : ℚ :=
  match o with
  | none => 0
  | some r => r.totalConfidence

/-- Average confidence of a slot (0 when empty). -/
def oAvg (o : Option Rec) : ℚ :=
  match o with
  | none => 0
  | some r => r.avgConfidence

/-- Sources list of a slot ([] when empty). -/
def oSources (o : Option Rec) : List String :=
  match o with
  | none => []
  | some r => r.sources

/-- Subreddits list of a slot ([] when empty). -/
def oSubs (o : Option Rec) : List String :=
  match o with
  | none => []
  | some r => r.subreddits

/-- Reddit-url list of a slot ([] when empty). -/
def oUrls (o : Option Rec) : List String :=
  match o with
  | none => []
  | some r => r.redditUrls

/-- Catalog entry of a slot. -/
def oEntry (o : Option Rec) : Option TmdbEntry :=
  match o with
  | none => none
  | some r => some r.entry

/-- The sub-sequence of a merge sequence that targets catalog id `id`
(merges with a zero id are skipped by the guard). -/
def mergesFor (l : List (ValidatedMatch × Context)) (id : ℕ) :
    List (ValidatedMatch × Context) :=
  l.filter (fun q => q.1.tmdbMatch.id = id ∧ q.1.tmdbMatch.id ≠ 0)

/-- Agreement of two recommendation slots on everything that is independent
of merge arrival order: occupancy, `mentions`, `totalConfidence`,
`avgConfidence`, the catalog entry (hence `vote_average` and the derived
`finalScore`), the multiset of `sources`, and the sets of `subreddits` and
`redditUrls`. -/
def RecAgree (o₁ o₂ : Option Rec) : Prop :=
  (o₁ = none ↔ o₂ = none) ∧
  oMentions o₁ = oMentions o₂ ∧
  oTotal o₁ = oTotal o₂ ∧
  oAvg o₁ = oAvg o₂ ∧
  oEntry o₁ = oEntry o₂ ∧
  (oSources o₁).Perm (oSources o₂) ∧
  (oSubs o₁).toFinset = (oSubs o₂).toFinset ∧
  (oUrls o₁).toFinset = (oUrls o₂).toFinset ∧
  Option.map finalScore o₁ = Option.map finalScore o₂

/-- The validated match of claim C2's counterexample (catalog id 949). -/
def cxMatch : ValidatedMatch :=
  { extractedTitle := "Heat"
    tmdbMatch := { id := 949, title := some "Heat", name := none,
                   poster_path := some "/h.jpg", vote_average := 8,
                   release_date := some "1995-12-15", first_air_date := none }
    confidence := 1 }

/-- First context of the C2 counterexample (source `"comment"`). -/
def cxCtxA : Context :=
  { source := "comment", subreddit := "movies", score := 1,
    url := "https://reddit.com/r/movies/p1" }

/-- Second context of the C2 counterexample (source `"ai-batch"`). -/
def cxCtxB : Context :=
  { source := "ai-batch", subreddit := "television", score := 2,
    url := "https://reddit.com/r/television/p2" }

/-! ## Harvest error-handling skeleton (`getQuickRecommendations`,
lines 382–781)

The claims about the harvest's failure semantics concern its guard and
`try`/`catch` structure: the availability check (line 383), the per-subreddit
search loop whose own `try`/`catch` skips failed searches (lines 461–483),
the early `[]` return when no posts were found (lines 485–488), and the outer
`catch` that turns any error escaping the remaining pipeline into `[]`
(lines 777–780).  The batch-processing pipeline between those (relevance
filtering, extraction, aggregation, final sort and truncation) is a
parameter `process`: an arbitrary computation on the accumulated posts that
either produces the final list or fails, which is exactly the scope the
outer `catch` protects. -/

/-- The per-subreddit search accumulation (lines 459–483): each search either
contributes its posts or fails, and a failure is caught and skipped
(`continue`). -/
def collectSearchResults (searches : List (Except String (List RedditPost))) :
    List RedditPost :=
  searches.foldl
    (fun allResults r =>
      match r with
      | .ok results => allResults ++ results
      | .error _ => allResults)
    []

/-- `getQuickRecommendations` error-handling skeleton: returns `[]` when the
Reddit client is unavailable; otherwise accumulates the searches, returns
`[]` if they produced no posts, and otherwise runs the remaining pipeline,
with any error it raises caught and turned into `[]`. -/
def getQuickRecommendations (available : Bool)
    (searches : List (Except String (List RedditPost)))
    (process : List RedditPost → Except String (List Rec)) : List Rec :=
  if available = false then []
  else
    match
      (if collectSearchResults searches = [] then Except.ok []
       else process (collectSearchResults searches)) with
    | .ok finalResults => finalResults
    | .error _ => []

/-! ## Pattern-strategy validation (`extractRecommendationsFromPost`,
lines 258–292)

The regex harvesting and filtering of candidate strings (lines 159–249) is
upstream of claim C10; its output — the filtered candidate list and the
per-candidate year map — is taken as input here.  The surviving candidates
are capped at 20 (line 256) and validated in `Promise.all` batches of 5
whose results are appended in batch order (lines 258–292), so the output
order is the sequential one.  The validation call on line 265 is
`this.searchAndValidateTMDB(title, year)` — no `contentType` argument — so
the default `'movie'` of line 64 applies, whatever `contentType` the
extractor itself received; and the confidence is scored against
`matchedMovie.title` (line 274), absent on TV entries (modelled by
`Option.getD … ""`, since JS passes `undefined`, which
`calculateMatchConfidence` treats like an empty title). -/

/-- The validation stage of the pattern (regex) strategy.  `contentType` is
the extractor's own parameter (line 113); `titleYears` is the
`titlesWithYears` map; `catalog` answers a catalog search request
`(title, year, contentType)` with a transport outcome. -/
def patternValidateCandidates (filtered : List String)
    (titleYears : String → Option String) (contentType : String)
    (catalog : String → Option String → String →
      Except String (List TmdbEntry)) : List ValidatedMatch :=
  (filtered.take 20).filterMap (fun title =>
    match searchAndValidateTMDB title (titleYears title) "movie"
        (catalog title (titleYears title) "movie") with
    | [] => none
    | matchedMovie :: _ =>
      some { extractedTitle := title
             tmdbMatch := matchedMovie
             confidence :=
               calculateMatchConfidence title (matchedMovie.title.getD "") })

/-! ## Confidence scorer: symmetry (claim C1) and contract (claim C4) -/

/-- The token-overlap branch is symmetric: the shared-token count is the
size of an intersection and the denominator is a maximum. -/
theorem tokenOverlap_comm (x y : String) :
    tokenOverlap x y = tokenOverlap y x := by
  have hfilter : ∀ E T : Finset String,
      E.filter (fun w => w ∈ T ∧ 2 < w.length) =
        (E ∩ T).filter (fun w => 2 < w.length) := by
    intro E T
    ext w
    simp only [Finset.mem_filter, Finset.mem_inter]
    tauto
  unfold tokenOverlap
  rw [hfilter, hfilter, Finset.inter_comm, max_comm]

/-- The token-overlap branch yields a value in `[0, 1]`. -/
theorem tokenOverlap_nonneg_le_one (x y : String) :
    0 ≤ tokenOverlap x y ∧ tokenOverlap x y ≤ 1 := by
  unfold tokenOverlap
  set E := (wsTokens x).toFinset with hE
  set T := (wsTokens y).toFinset with hT
  have hle : (E.filter (fun w => w ∈ T ∧ 2 < w.length)).card ≤
      max E.card T.card :=
    le_trans (Finset.card_filter_le _ _) (le_max_left _ _)
  by_cases h : max E.card T.card = 0
  · rw [if_pos h]
    have hzero : (E.filter (fun w => w ∈ T ∧ 2 < w.length)).card = 0 :=
      Nat.le_zero.mp (h ▸ hle)
    rw [hzero]
    norm_num
  · rw [if_neg h]
    have hpos : (0 : ℚ) < ((max E.card T.card : ℕ) : ℚ) := by
      exact_mod_cast Nat.pos_of_ne_zero h
    constructor
    · positivity
    · rw [div_le_one hpos]
      exact_mod_cast hle

/-- **Claim C1 (amended)**: the confidence scorer is *symmetric*:
`calculateMatchConfidence(a, b) = calculateMatchConfidence(b, a)` for all
titles `a`, `b`.  Every branch of the scorer is invariant under swapping its
arguments — in particular the shared-token count is the size of a set
intersection, so token presence counts the same in both directions. -/
theorem calculateMatchConfidence_symm (a b : String) :
    calculateMatchConfidence a b = calculateMatchConfidence b a := by
  unfold calculateMatchConfidence
  by_cases h0 : a = "" ∨ b = ""
  · rw [if_pos h0, if_pos (Or.symm h0)]
  · have h0' : ¬(b = "" ∨ a = "") := fun h => h0 (Or.symm h)
    rw [if_neg h0, if_neg h0']
    by_cases h1 : jsTrim (jsToLower a) = jsTrim (jsToLower b)
    · rw [if_pos h1, if_pos h1.symm]
    · have h1' : ¬(jsTrim (jsToLower b) = jsTrim (jsToLower a)) :=
        fun h => h1 h.symm
      rw [if_neg h1, if_neg h1']
      by_cases h2 : stripLeadingArticle (jsTrim (jsToLower a)) =
          stripLeadingArticle (jsTrim (jsToLower b))
      · rw [if_pos h2, if_pos h2.symm]
      · have h2' : ¬(stripLeadingArticle (jsTrim (jsToLower b)) =
            stripLeadingArticle (jsTrim (jsToLower a))) := fun h => h2 h.symm
        rw [if_neg h2, if_neg h2']
        exact tokenOverlap_comm _ _

/-- **Claim C1 (counterexample)**: on the claim's own example pair the two
scores are *equal* (both `1/2`), refuting the asserted asymmetry at
`("The Matrix", "Matrix Reloaded")`. -/
theorem calculateMatchConfidence_matrix_pair_equal :
    calculateMatchConfidence "The Matrix" "Matrix Reloaded" =
      calculateMatchConfidence "Matrix Reloaded" "The Matrix" := by
  have h1 : calculateMatchConfidence "The Matrix" "Matrix Reloaded" =
      tokenOverlap "matrix" "matrix reloaded" := rfl
  have h2 : calculateMatchConfidence "Matrix Reloaded" "The Matrix" =
      tokenOverlap "matrix reloaded" "matrix" := rfl
  rw [h1, h2, tokenOverlap_comm]

/-- **Claim C4**: the scorer's contract: the result lies in `[0, 1]`; an
empty argument gives `0`; a non-empty title scores `1` against itself; an
exact case-insensitive (trimmed) match gives `1`; otherwise an exact match
after stripping a leading article `the|a|an` gives `0.95`; otherwise the
result is the shared-token overlap ratio. -/
theorem calculateMatchConfidence_contract (a b : String) :
    (0 ≤ calculateMatchConfidence a b ∧ calculateMatchConfidence a b ≤ 1) ∧
    (a = "" ∨ b = "" → calculateMatchConfidence a b = 0) ∧
    (a ≠ "" → calculateMatchConfidence a a = 1) ∧
    (a ≠ "" → b ≠ "" → jsTrim (jsToLower a) = jsTrim (jsToLower b) →
      calculateMatchConfidence a b = 1) ∧
    (a ≠ "" → b ≠ "" → jsTrim (jsToLower a) ≠ jsTrim (jsToLower b) →
      stripLeadingArticle (jsTrim (jsToLower a)) =
        stripLeadingArticle (jsTrim (jsToLower b)) →
      calculateMatchConfidence a b = 19/20) ∧
    (a ≠ "" → b ≠ "" → jsTrim (jsToLower a) ≠ jsTrim (jsToLower b) →
      stripLeadingArticle (jsTrim (jsToLower a)) ≠
        stripLeadingArticle (jsTrim (jsToLower b)) →
      calculateMatchConfidence a b =
        tokenOverlap (stripLeadingArticle (jsTrim (jsToLower a)))
          (stripLeadingArticle (jsTrim (jsToLower b)))) := by
  refine ⟨?_, ?_, ?_, ?_, ?_, ?_⟩
  · unfold calculateMatchConfidence
    split_ifs with h0 h1 h2
    · norm_num
    · norm_num
    · norm_num
    · exact tokenOverlap_nonneg_le_one _ _
  · intro h
    unfold calculateMatchConfidence
    rw [if_pos h]
  · intro ha
    unfold calculateMatchConfidence
    rw [if_neg (not_or.mpr ⟨ha, ha⟩), if_pos rfl]
  · intro ha hb h
    unfold calculateMatchConfidence
    rw [if_neg (not_or.mpr ⟨ha, hb⟩), if_pos h]
  · intro ha hb h1 h2
    unfold calculateMatchConfidence
    rw [if_neg (not_or.mpr ⟨ha, hb⟩), if_neg h1, if_pos h2]
  · intro ha hb h1 h2
    unfold calculateMatchConfidence
    rw [if_neg (not_or.mpr ⟨ha, hb⟩), if_neg h1, if_neg h2]

/-- Witness for C4: each hypothesis-guarded clause discharged at a concrete
input. -/
theorem calculateMatchConfidence_contract_witness :
    calculateMatchConfidence "Heat" "Heat" = 1 ∧
    calculateMatchConfidence "" "Heat" = 0 ∧
    calculateMatchConfidence "The Matrix" "Matrix" = 19/20 ∧
    calculateMatchConfidence "The Matrix" "Matrix Reloaded" =
      tokenOverlap (stripLeadingArticle (jsTrim (jsToLower "The Matrix")))
        (stripLeadingArticle (jsTrim (jsToLower "Matrix Reloaded"))) :=
  ⟨(calculateMatchConfidence_contract "Heat" "Heat").2.2.1 (by decide),
   (calculateMatchConfidence_contract "" "Heat").2.1 (Or.inl rfl),
   (calculateMatchConfidence_contract "The Matrix" "Matrix").2.2.2.2.1
     (by decide) (by decide) (by decide) (by decide),
   (calculateMatchConfidence_contract "The Matrix" "Matrix Reloaded").2.2.2.2.2
     (by decide) (by decide) (by decide) (by decide)⟩

/-! ## Relevance filter: kill patterns (claim C5) and base rejection with the
harvest admission filter (claim C6) -/

/-- **Claim C5**: a post title matching one of the fixed kill patterns gets a
non-positive (rejecting) relevance score, whatever positive signals were
accumulated; the claim's "movies with … scenes" example is rejected with the
sentinel `-1000` while "Movies like Heat?" is accepted with a positive
score. -/
theorem killPattern_forces_rejection :
    (∀ (postTitle searchMovieTitle : String) (releaseYear : Option String),
      matchesKillPattern (jsToLower postTitle)
        (relevanceQuery searchMovieTitle) = true →
      calculatePostRelevance postTitle searchMovieTitle releaseYear ≤ 0) ∧
    calculatePostRelevance "Movies with great fight scenes including Heat"
      "Heat" none = -1000 ∧
    0 < calculatePostRelevance "Movies like Heat?" "Heat" none := by
  refine ⟨?_, by decide, by decide⟩
  intro pt t y h
  simp only [calculatePostRelevance]
  rw [h]
  by_cases hc : containsSub (jsToLower pt) (relevanceQuery t) = true
  · rw [if_pos hc, if_pos rfl]
    norm_num
  · rw [if_neg hc]
    norm_num

/-- Witness for C5: the general kill-pattern part applied to the claim's
rejected example. -/
theorem killPattern_forces_rejection_witness :
    matchesKillPattern
      (jsToLower "Movies with great fight scenes including Heat")
      (relevanceQuery "Heat") = true ∧
    calculatePostRelevance "Movies with great fight scenes including Heat"
      "Heat" none ≤ 0 :=
  ⟨by decide, killPattern_forces_rejection.1 _ _ none (by decide)⟩

/-- **Claim C6**: a post title that does not contain the (year-suffix
stripped, lowercased) target title scores the sentinel `-1000`; and the
harvest loop's admission filter keeps a batch post exactly when its relevance
score is positive, i.e. rejects it exactly when the score is `≤ 0`. -/
theorem relevance_base_rejection_and_admission :
    (∀ (postTitle searchMovieTitle : String) (releaseYear : Option String),
      containsSub (jsToLower postTitle) (relevanceQuery searchMovieTitle) =
        false →
      calculatePostRelevance postTitle searchMovieTitle releaseYear = -1000) ∧
    (∀ (batch : List RedditPost) (movieTitle : String)
      (releaseYear : Option String) (post : RedditPost), post ∈ batch →
      (({ post := post,
          relevance :=
            calculatePostRelevance post.title movieTitle releaseYear } :
            ScoredPost) ∈ scoreAndFilterBatch batch movieTitle releaseYear ↔
        0 < calculatePostRelevance post.title movieTitle releaseYear)) := by
  constructor
  · intro pt t y h
    simp only [calculatePostRelevance]
    rw [h]
    simp
  · intro batch t y post hmem
    unfold scoreAndFilterBatch
    constructor
    · intro hin
      have hf := (List.mergeSort_perm _ _).mem_iff.mp hin
      rw [List.mem_filter] at hf
      exact of_decide_eq_true hf.2
    · intro hrel
      apply (List.mergeSort_perm _ _).mem_iff.mpr
      rw [List.mem_filter]
      exact ⟨List.mem_map.mpr ⟨post, hmem, rfl⟩, decide_eq_true hrel⟩

/-- Witness for C6: both parts at concrete inputs — a post not mentioning
"Heat" is scored `-1000`, and a singleton batch containing a relevant post
admits it iff its score is positive. -/
theorem relevance_base_rejection_and_admission_witness :
    calculatePostRelevance "Best heist thrillers of the 90s" "Heat" none =
      -1000 ∧
    (({ post := { title := "Movies like Heat?" },
        relevance := calculatePostRelevance "Movies like Heat?" "Heat" none } :
        ScoredPost) ∈
        scoreAndFilterBatch [{ title := "Movies like Heat?" }] "Heat" none ↔
      0 < calculatePostRelevance "Movies like Heat?" "Heat" none) :=
  ⟨relevance_base_rejection_and_admission.1 _ _ none (by decide),
   relevance_base_rejection_and_admission.2
     [{ title := "Movies like Heat?" }] "Heat" none _
     (List.mem_singleton_self _)⟩

/-! ## Validator: exact-year promotion (claim C3) and error handling
(claim C9) -/

/-- **Claim C3**: when a year is supplied and some quality-filtered catalog
entry's release year equals it exactly (`exact` being the first such entry),
the validator returns that entry first, the list has no duplicate entries
(given that the catalog response carries pairwise distinct ids, which is the
catalog's data-model guarantee), and at most 3 entries. -/
theorem searchAndValidateTMDB_exact_year_first (title y contentType : String)
    (raw : List TmdbEntry) (exact : TmdbEntry)
    (htitle : title ≠ "")
    (hids : ((raw.filter (qualityFilter contentType)).map (fun m => m.id)).Nodup)
    (hfind : (raw.filter (qualityFilter contentType)).find?
        (fun m => entryReleaseYear m = some y) = some exact) :
    (searchAndValidateTMDB title (some y) contentType (.ok raw)).head? =
        some exact ∧
    (searchAndValidateTMDB title (some y) contentType (.ok raw)).length ≤ 3 ∧
    (searchAndValidateTMDB title (some y) contentType (.ok raw)).Nodup := by
  have hmem : exact ∈ raw.filter (qualityFilter contentType) :=
    List.mem_of_find?_eq_some hfind
  have hne : (raw.filter (qualityFilter contentType)).length > 0 :=
    List.length_pos.mpr (List.ne_nil_of_mem hmem)
  have hout : searchAndValidateTMDB title (some y) contentType (.ok raw) =
      (exact :: (raw.filter (qualityFilter contentType)).filter
        (fun m => m.id ≠ exact.id)).take 3 := by
    unfold searchAndValidateTMDB
    rw [if_neg htitle]
    simp only [hfind, if_pos hne]
  have hnodup : (exact :: (raw.filter (qualityFilter contentType)).filter
      (fun m => m.id ≠ exact.id)).Nodup := by
    have hnd : (raw.filter (qualityFilter contentType)).Nodup :=
      List.Nodup.of_map _ hids
    refine List.nodup_cons.mpr ⟨?_, hnd.filter _⟩
    intro hin
    have := (List.mem_filter.mp hin).2
    simp at this
  refine ⟨?_, ?_, ?_⟩
  · rw [hout]
    rfl
  · rw [hout]
    exact le_trans (List.length_take_le _ _) (le_refl 3)
  · rw [hout]
    exact hnodup.sublist (List.take_sublist _ _)

/-- Witness for C3: a concrete catalog response where the second
quality-surviving entry matches the requested year exactly and is promoted
to the front. -/
theorem searchAndValidateTMDB_exact_year_first_witness :
    (searchAndValidateTMDB "Heat" (some "1995") "movie"
        (.ok [{ id := 10, title := some "Heat", name := none,
                poster_path := some "/a.jpg", vote_average := 6,
                release_date := some "1972-06-01", first_air_date := none },
              { id := 949, title := some "Heat", name := none,
                poster_path := some "/b.jpg", vote_average := 8,
                release_date := some "1995-12-15", first_air_date := none }])).head? =
      some { id := 949, title := some "Heat", name := none,
             poster_path := some "/b.jpg", vote_average := 8,
             release_date := some "1995-12-15", first_air_date := none } ∧
    (searchAndValidateTMDB "Heat" (some "1995") "movie"
        (.ok [{ id := 10, title := some "Heat", name := none,
                poster_path := some "/a.jpg", vote_average := 6,
                release_date := some "1972-06-01", first_air_date := none },
              { id := 949, title := some "Heat", name := none,
                poster_path := some "/b.jpg", vote_average := 8,
                release_date := some "1995-12-15", first_air_date := none }])).length ≤ 3 ∧
    (searchAndValidateTMDB "Heat" (some "1995") "movie"
        (.ok [{ id := 10, title := some "Heat", name := none,
                poster_path := some "/a.jpg", vote_average := 6,
                release_date := some "1972-06-01", first_air_date := none },
              { id := 949, title := some "Heat", name := none,
                poster_path := some "/b.jpg", vote_average := 8,
                release_date := some "1995-12-15", first_air_date := none }])).Nodup :=
  searchAndValidateTMDB_exact_year_first "Heat" "1995" "movie" _ _
    (by decide) (by decide) (by decide)

/-- **Claim C9**: a failed catalog request or response parse during
validation yields the empty list — the error is caught, never re-raised. -/
theorem searchAndValidateTMDB_error_empty (title : String)
    (year : Option String) (contentType : String) (e : String) :
    searchAndValidateTMDB title year contentType (.error e) = [] := by
  unfold searchAndValidateTMDB
  split_ifs with h
  · rfl
  · rfl

/-! ## Harvest failure semantics (claim C8) -/

/-- When every per-subreddit search fails, the accumulated post list is
empty (each failure is caught by the inner `try`/`catch` and skipped). -/
theorem collectSearchResults_all_errors
    (searches : List (Except String (List RedditPost)))
    (h : ∀ s ∈ searches, ∃ e, s = .error e) :
    collectSearchResults searches = [] := by
  unfold collectSearchResults
  suffices haux : ∀ (l : List (Except String (List RedditPost)))
      (acc : List RedditPost), (∀ s ∈ l, ∃ e, s = .error e) →
      l.foldl (fun allResults r =>
        match r with
        | .ok results => allResults ++ results
        | .error _ => allResults) acc = acc by
    exact haux _ [] h
  intro l
  induction l with
  | nil => intro acc _; rfl
  | cons x tl ih =>
    intro acc hx
    obtain ⟨e, he⟩ := hx x (List.mem_cons_self _ _)
    subst he
    exact ih acc (fun s hs => hx s (List.mem_cons_of_mem _ hs))

/-- **Claim C8**: the harvest returns a list on every input — in particular
`[]` when the Reddit backend is unavailable, `[]` when every community
search fails, and `[]` when the downstream pipeline raises an error (the
outer `catch` swallows it). -/
theorem getQuickRecommendations_never_throws :
    (∀ (searches : List (Except String (List RedditPost)))
      (process : List RedditPost → Except String (List Rec)),
      getQuickRecommendations false searches process = []) ∧
    (∀ (available : Bool) (searches : List (Except String (List RedditPost)))
      (process : List RedditPost → Except String (List Rec)),
      (∀ s ∈ searches, ∃ e, s = .error e) →
      getQuickRecommendations available searches process = []) ∧
    (∀ (available : Bool) (searches : List (Except String (List RedditPost)))
      (e : String),
      getQuickRecommendations available searches (fun _ => .error e) = []) := by
  refine ⟨fun searches process => rfl, ?_, ?_⟩
  · intro available searches process h
    unfold getQuickRecommendations
    rw [collectSearchResults_all_errors searches h]
    cases available <;> rfl
  · intro available searches e
    unfold getQuickRecommendations
    cases available
    · rfl
    · by_cases h : collectSearchResults searches = []
      · rw [if_neg (by decide), if_pos h]
      · rw [if_neg (by decide), if_neg h]

/-- Witness for C8: a harvest whose single community search fails with a
network error returns the empty list. -/
theorem getQuickRecommendations_never_throws_witness :
    getQuickRecommendations true [.error "ECONNRESET"]
      (fun _ => .ok []) = [] :=
  getQuickRecommendations_never_throws.2.1 true _ _
    (by
      intro s hs
      rw [List.mem_singleton] at hs
      exact ⟨"ECONNRESET", hs⟩)

/-! ## Pattern-strategy validation uses the movie default (claim C10) -/

/-- Every entry the validator returns passed the quality filter for the
content type it was queried with. -/
theorem mem_searchAndValidateTMDB_quality (title : String)
    (year : Option String) (ct : String)
    (response : Except String (List TmdbEntry)) (x : TmdbEntry)
    (hx : x ∈ searchAndValidateTMDB title year ct response) :
    qualityFilter ct x = true := by
  unfold searchAndValidateTMDB at hx
  by_cases h : title = ""
  · rw [if_pos h] at hx
    cases hx
  · rw [if_neg h] at hx
    cases response with
    | error e => cases hx
    | ok raw =>
      have hsub : x ∈ raw.filter (qualityFilter ct) := by
        cases year with
        | none => exact List.mem_of_mem_take hx
        | some y =>
          dsimp only at hx
          by_cases hlen : (raw.filter (qualityFilter ct)).length > 0
          · rw [if_pos hlen] at hx
            cases hfind : (raw.filter (qualityFilter ct)).find?
                (fun m => entryReleaseYear m = some y) with
            | none =>
              rw [hfind] at hx
              exact List.mem_of_mem_take hx
            | some ex =>
              rw [hfind] at hx
              rcases List.mem_cons.mp (List.mem_of_mem_take hx) with h1 | h2
              · exact h1 ▸ List.mem_of_find?_eq_some hfind
              · exact List.mem_of_mem_filter h2
          · rw [if_neg hlen] at hx
            exact List.mem_of_mem_take hx
      exact (List.mem_filter.mp hsub).2

/-- **Claim C10**: the pattern (regex) strategy validates every surviving
candidate with the default content type `'movie'` (the call on line 265 omits
the argument): the validation outcome is independent of the `contentType`
the extractor received, and every validated match passed the *movie* quality
filter (the one that reads `m.title`). -/
theorem patternValidateCandidates_movie_default (filtered : List String)
    (titleYears : String → Option String) (contentType : String)
    (catalog : String → Option String → String →
      Except String (List TmdbEntry)) :
    patternValidateCandidates filtered titleYears contentType catalog =
      patternValidateCandidates filtered titleYears "movie" catalog ∧
    (∀ v ∈ patternValidateCandidates filtered titleYears contentType catalog,
      qualityFilter "movie" v.tmdbMatch = true) := by
  refine ⟨rfl, ?_⟩
  intro v hv
  unfold patternValidateCandidates at hv
  rw [List.mem_filterMap] at hv
  obtain ⟨title, htitle, hsome⟩ := hv
  cases hres : searchAndValidateTMDB title (titleYears title) "movie"
      (catalog title (titleYears title) "movie") with
  | nil =>
    rw [hres] at hsome
    cases hsome
  | cons m rest =>
    rw [hres] at hsome
    cases hsome
    exact mem_searchAndValidateTMDB_quality _ _ _ _ m
      (hres ▸ List.mem_cons_self m rest)

/-- Witness for C10: a concrete candidate validated against a catalog oracle
while the extractor runs with `contentType = 'tv'`. -/
theorem patternValidateCandidates_movie_default_witness :
    patternValidateCandidates ["Annihilation"] (fun _ => none) "tv"
        (fun _ _ _ =>
          .ok [{ id := 300668, title := some "Annihilation", name := none,
                 poster_path := some "/ann.jpg", vote_average := 6,
                 release_date := some "2018-02-22", first_air_date := none }]) =
      patternValidateCandidates ["Annihilation"] (fun _ => none) "movie"
        (fun _ _ _ =>
          .ok [{ id := 300668, title := some "Annihilation", name := none,
                 poster_path := some "/ann.jpg", vote_average := 6,
                 release_date := some "2018-02-22", first_air_date := none }]) ∧
    qualityFilter "movie"
      { id := 300668, title := some "Annihilation", name := none,
        poster_path := some "/ann.jpg", vote_average := 6,
        release_date := some "2018-02-22", first_air_date := none } = true :=
  ⟨(patternValidateCandidates_movie_default _ _ _ _).1,
   (patternValidateCandidates_movie_default ["Annihilation"] (fun _ => none)
       "tv" (fun _ _ _ =>
         .ok [{ id := 300668, title := some "Annihilation", name := none,
                poster_path := some "/ann.jpg", vote_average := 6,
                release_date := some "2018-02-22",
                first_air_date := none }])).2
     { extractedTitle := "Annihilation"
       tmdbMatch := { id := 300668, title := some "Annihilation", name := none,
                      poster_path := some "/ann.jpg", vote_average := 6,
                      release_date := some "2018-02-22",
                      first_air_date := none }
       confidence := calculateMatchConfidence "Annihilation" "Annihilation" }
     (by decide)⟩

/-! ## Aggregator invariant (claim C7) -/

/-- The per-record update re-establishes the invariant: it ends with the
recompute `avgConfidence = totalConfidence / mentions` on the just-updated
fields, and `mentions` is `1` on creation or incremented on update. -/
theorem updateRecOpt_inv (existing : Option Rec) (movie : ValidatedMatch)
    (context : Context) :
    1 ≤ (updateRecOpt existing movie context).mentions ∧
    (updateRecOpt existing movie context).avgConfidence =
      (updateRecOpt existing movie context).totalConfidence /
        ((updateRecOpt existing movie context).mentions : ℚ) := by
  unfold updateRecOpt
  cases existing with
  | none =>
    refine ⟨le_refl 1, ?_⟩
    simp
  | some r =>
    refine ⟨Nat.le_add_left 1 r.mentions, ?_⟩
    simp [Nat.succ_ne_zero]

/-- **Claim C7**: every `addOrUpdateRecommendation` call re-establishes
`avgConfidence = totalConfidence / mentions` for the stored records, and the
`finalScore` value is always the recomputation
`avgConfidence * ln(mentions + 1) * (voteAverage / 10)` from the current
fields; on the claim's example (two merges of the same id, each with
confidence `0.9`, vote average `7`) the stored record has `mentions = 2`,
`avgConfidence = 0.9` and `finalScore = 0.9 * ln 3 * 0.7`. -/
theorem addOrUpdateRecommendation_invariant :
    (∀ (m : RecMap) (movie : ValidatedMatch) (context : Context),
      RecMapInv m → RecMapInv (addOrUpdateRecommendation m movie context)) ∧
    (∀ r : Rec, finalScore r =
      (r.avgConfidence : ℝ) * Real.log ((r.mentions : ℝ) + 1) *
        ((r.entry.vote_average : ℝ) / 10)) ∧
    (exampleDoubleMerge 603).map (fun r => r.mentions) = some 2 ∧
    (exampleDoubleMerge 603).map (fun r => r.avgConfidence) = some (9/10) ∧
    (exampleDoubleMerge 603).map finalScore =
      some ((9/10 : ℝ) * Real.log 3 * ((7 : ℝ)/10)) := by
  refine ⟨?_, fun r => rfl, rfl, ?_, ?_⟩
  · intro m movie context hinv id r hr
    unfold addOrUpdateRecommendation at hr
    by_cases hid : movie.tmdbMatch.id = 0
    · rw [if_pos hid] at hr
      exact hinv id r hr
    · rw [if_neg hid] at hr
      by_cases heq : id = movie.tmdbMatch.id
      · rw [if_pos heq] at hr
        cases hr
        exact updateRecOpt_inv _ movie context
      · rw [if_neg heq] at hr
        exact hinv id r hr
  · have h : (exampleDoubleMerge 603).map (fun r => r.avgConfidence) =
        some ((9/10 + 9/10 : ℚ) / ((2 : ℕ) : ℚ)) := rfl
    rw [h, Option.some_inj]
    norm_num
  · have h : (exampleDoubleMerge 603).map finalScore =
        some ((((9/10 + 9/10 : ℚ) / ((2 : ℕ) : ℚ) : ℚ) : ℝ) *
          Real.log (((2 : ℕ) : ℝ) + 1) * (((7 : ℚ) : ℝ) / 10)) := rfl
    rw [h, Option.some_inj]
    norm_num

/-- Witness for C7: the invariant-preservation part applied to the empty map
(which satisfies the invariant vacuously) and one merge. -/
theorem addOrUpdateRecommendation_invariant_witness :
    RecMapInv emptyRecMap ∧
    RecMapInv (addOrUpdateRecommendation emptyRecMap matchConf09 ctxA) :=
  ⟨fun _ _ h => Option.noConfusion h,
   addOrUpdateRecommendation_invariant.1 emptyRecMap matchConf09 ctxA
     (fun _ _ h => Option.noConfusion h)⟩

/-! ## Aggregator ordering (claim C2)

To analyse how a sequence of merges affects one catalog id, the evolution of
the record stored at that id is isolated: `updSeq` is the per-id view of a
merge sequence, and `applyMerges_apply` shows a merge sequence acts on each
map slot as `updSeq` of the sub-sequence of merges targeting that id. -/

theorem updSeq_nil (o : Option Rec) : updSeq [] o = o := rfl

theorem updSeq_cons (p : ValidatedMatch × Context)
    (ps : List (ValidatedMatch × Context)) (o : Option Rec) :
    updSeq (p :: ps) o = updSeq ps (some (updateRecOpt o p.1 p.2)) := rfl

/-- One update adds one mention. -/
theorem updateRecOpt_mentions (o : Option Rec) (mv : ValidatedMatch)
    (c : Context) : (updateRecOpt o mv c).mentions = oMentions o + 1 := by
  unfold updateRecOpt oMentions
  cases o <;> rfl

/-- One update adds the match's confidence to the total. -/
theorem updateRecOpt_total (o : Option Rec) (mv : ValidatedMatch)
    (c : Context) :
    (updateRecOpt o mv c).totalConfidence = oTotal o + mv.confidence := by
  unfold updateRecOpt oTotal
  cases o with
  | none => simp
  | some r => rfl

/-- One update appends the context's source. -/
theorem updateRecOpt_sources (o : Option Rec) (mv : ValidatedMatch)
    (c : Context) :
    (updateRecOpt o mv c).sources = oSources o ++ [c.source] := by
  unfold updateRecOpt oSources
  cases o with
  | none => rfl
  | some r => rfl

/-- One update adds the context's subreddit to the subreddit set. -/
theorem updateRecOpt_subs (o : Option Rec) (mv : ValidatedMatch)
    (c : Context) :
    (updateRecOpt o mv c).subreddits.toFinset =
      (oSubs o).toFinset ∪ {c.subreddit} := by
  unfold updateRecOpt oSubs
  cases o with
  | none => simp
  | some r =>
    dsimp only
    by_cases hmem : c.subreddit ∈ r.subreddits
    · rw [if_pos hmem]
      have : ({c.subreddit} : Finset String) ⊆ r.subreddits.toFinset :=
        Finset.singleton_subset_iff.mpr (List.mem_toFinset.mpr hmem)
      rw [Finset.union_eq_left.mpr this]
    · rw [if_neg hmem]
      simp

/-- One update adds the context's url to the url set. -/
theorem updateRecOpt_urls (o : Option Rec) (mv : ValidatedMatch)
    (c : Context) :
    (updateRecOpt o mv c).redditUrls.toFinset =
      (oUrls o).toFinset ∪ {c.url} := by
  unfold updateRecOpt oUrls
  cases o with
  | none => simp
  | some r =>
    dsimp only
    by_cases hmem : c.url ∈ r.redditUrls
    · rw [if_pos hmem]
      have : ({c.url} : Finset String) ⊆ r.redditUrls.toFinset :=
        Finset.singleton_subset_iff.mpr (List.mem_toFinset.mpr hmem)
      rw [Finset.union_eq_left.mpr this]
    · rw [if_neg hmem]
      simp

/-- The update keeps the catalog entry of an existing record and installs the
match's entry on creation. -/
theorem updateRecOpt_entry (o : Option Rec) (mv : ValidatedMatch)
    (c : Context) :
    (updateRecOpt o mv c).entry =
      (match o with | none => mv.tmdbMatch | some r => r.entry) := by
  unfold updateRecOpt
  cases o <;> rfl

/-- A merge sequence adds one mention per merge. -/
theorem updSeq_mentions (ps : List (ValidatedMatch × Context))
    (o : Option Rec) :
    oMentions (updSeq ps o) = oMentions o + ps.length := by
  induction ps generalizing o with
  | nil => rfl
  | cons p tl ih =>
    rw [updSeq_cons, ih]
    show (updateRecOpt o p.1 p.2).mentions + tl.length = _
    rw [updateRecOpt_mentions]
    simp [Nat.add_assoc, Nat.add_comm 1 tl.length]

/-- A merge sequence adds the sum of the merged confidences to the total. -/
theorem updSeq_total (ps : List (ValidatedMatch × Context)) (o : Option Rec) :
    oTotal (updSeq ps o) =
      oTotal o + (ps.map (fun p => p.1.confidence)).sum := by
  induction ps generalizing o with
  | nil => simp [updSeq_nil, oTotal]
  | cons p tl ih =>
    rw [updSeq_cons, ih]
    show (updateRecOpt o p.1 p.2).totalConfidence + _ = _
    rw [updateRecOpt_total]
    simp [add_assoc]

/-- A merge sequence appends the merged sources in order. -/
theorem updSeq_sources (ps : List (ValidatedMatch × Context))
    (o : Option Rec) :
    oSources (updSeq ps o) =
      oSources o ++ ps.map (fun p => p.2.source) := by
  induction ps generalizing o with
  | nil => simp [updSeq_nil]
  | cons p tl ih =>
    rw [updSeq_cons, ih]
    show (updateRecOpt o p.1 p.2).sources ++ _ = _
    rw [updateRecOpt_sources]
    simp

/-- A merge sequence unions the merged subreddits into the subreddit set. -/
theorem updSeq_subs (ps : List (ValidatedMatch × Context)) (o : Option Rec) :
    (oSubs (updSeq ps o)).toFinset =
      (oSubs o).toFinset ∪ (ps.map (fun p => p.2.subreddit)).toFinset := by
  induction ps generalizing o with
  | nil => simp [updSeq_nil]
  | cons p tl ih =>
    rw [updSeq_cons, ih]
    show ((updateRecOpt o p.1 p.2).subreddits).toFinset ∪ _ = _
    rw [updateRecOpt_subs]
    rw [List.map_cons, List.toFinset_cons, Finset.union_assoc,
      Finset.insert_eq]

/-- A merge sequence unions the merged urls into the url set. -/
theorem updSeq_urls (ps : List (ValidatedMatch × Context)) (o : Option Rec) :
    (oUrls (updSeq ps o)).toFinset =
      (oUrls o).toFinset ∪ (ps.map (fun p => p.2.url)).toFinset := by
  induction ps generalizing o with
  | nil => simp [updSeq_nil]
  | cons p tl ih =>
    rw [updSeq_cons, ih]
    show ((updateRecOpt o p.1 p.2).redditUrls).toFinset ∪ _ = _
    rw [updateRecOpt_urls]
    rw [List.map_cons, List.toFinset_cons, Finset.union_assoc,
      Finset.insert_eq]

/-- A merge sequence applied to an existing record keeps its catalog entry. -/
theorem updSeq_entry_some (ps : List (ValidatedMatch × Context)) (r : Rec) :
    oEntry (updSeq ps (some r)) = some r.entry := by
  induction ps generalizing r with
  | nil => rfl
  | cons p tl ih =>
    rw [updSeq_cons, ih]
    rw [updateRecOpt_entry]

/-- A non-empty merge sequence applied to an empty slot installs the first
merge's catalog entry. -/
theorem updSeq_entry_none (p : ValidatedMatch × Context)
    (ps : List (ValidatedMatch × Context)) :
    oEntry (updSeq (p :: ps) none) = some p.1.tmdbMatch := by
  rw [updSeq_cons, updSeq_entry_some, updateRecOpt_entry]

/-- A merge sequence applied to an occupied slot leaves it occupied. -/
theorem updSeq_some_ne_none (ps : List (ValidatedMatch × Context)) (r : Rec) :
    updSeq ps (some r) ≠ none := by
  induction ps generalizing r with
  | nil => exact fun h => Option.noConfusion h
  | cons p tl ih =>
    rw [updSeq_cons]
    exact ih _

/-- A non-empty merge sequence leaves the slot occupied. -/
theorem updSeq_ne_none (p : ValidatedMatch × Context)
    (ps : List (ValidatedMatch × Context)) (o : Option Rec) :
    updSeq (p :: ps) o ≠ none := by
  rw [updSeq_cons]
  exact updSeq_some_ne_none _ _

/-- After a non-empty merge sequence the stored average is the recomputed
`totalConfidence / mentions`. -/
theorem updSeq_avg (p : ValidatedMatch × Context)
    (ps : List (ValidatedMatch × Context)) (o : Option Rec) :
    oAvg (updSeq (p :: ps) o) =
      oTotal (updSeq (p :: ps) o) /
        ((oMentions (updSeq (p :: ps) o) : ℕ) : ℚ) := by
  induction ps generalizing p o with
  | nil =>
    rw [updSeq_cons, updSeq_nil]
    show (updateRecOpt o p.1 p.2).avgConfidence = _
    exact (updateRecOpt_inv o p.1 p.2).2
  | cons q tl ih =>
    rw [updSeq_cons p (q :: tl) o]
    exact ih q (some (updateRecOpt o p.1 p.2))

/-- Localization: a merge sequence acts on the slot of catalog id `id`
as the per-id view of the merges targeting `id`. -/
theorem applyMerges_apply (l : List (ValidatedMatch × Context)) (m : RecMap)
    (id : ℕ) :
    applyMerges l m id = updSeq (mergesFor l id) (m id) := by
  induction l generalizing m with
  | nil => rfl
  | cons p tl ih =>
    have hstep : applyMerges (p :: tl) m =
        applyMerges tl (addOrUpdateRecommendation m p.1 p.2) := rfl
    rw [hstep, ih]
    by_cases h0 : p.1.tmdbMatch.id = 0
    · have hf : mergesFor (p :: tl) id = mergesFor tl id := by
        unfold mergesFor
        rw [List.filter_cons_of_neg]
        simp [h0]
      have hm : addOrUpdateRecommendation m p.1 p.2 = m := by
        unfold addOrUpdateRecommendation
        rw [if_pos h0]
      rw [hf, hm]
    · by_cases hid : p.1.tmdbMatch.id = id
      · subst hid
        have hf : mergesFor (p :: tl) p.1.tmdbMatch.id =
            p :: mergesFor tl p.1.tmdbMatch.id := by
          unfold mergesFor
          rw [List.filter_cons_of_pos]
          exact decide_eq_true ⟨rfl, h0⟩
        rw [hf, updSeq_cons]
        congr 1
        unfold addOrUpdateRecommendation
        rw [if_neg h0, if_pos rfl]
      · have hf : mergesFor (p :: tl) id = mergesFor tl id := by
          unfold mergesFor
          rw [List.filter_cons_of_neg]
          simp [hid]
        rw [hf]
        congr 1
        unfold addOrUpdateRecommendation
        rw [if_neg h0]
        rw [if_neg (fun h => hid h.symm)]

theorem recAgree_refl (o : Option Rec) : RecAgree o o :=
  ⟨Iff.rfl, rfl, rfl, rfl, rfl, List.Perm.refl _, rfl, rfl, rfl⟩

/-- `finalScore` is determined by occupancy, `mentions`, `avgConfidence` and
the catalog entry. -/
theorem finalScore_map_eq (o₁ o₂ : Option Rec)
    (hnone : o₁ = none ↔ o₂ = none)
    (hm : oMentions o₁ = oMentions o₂)
    (ha : oAvg o₁ = oAvg o₂)
    (he : oEntry o₁ = oEntry o₂) :
    Option.map finalScore o₁ = Option.map finalScore o₂ := by
  cases o₁ with
  | none => rw [hnone.mp rfl]
  | some r₁ =>
    cases o₂ with
    | none => exact Option.noConfusion (hnone.mpr rfl)
    | some r₂ =>
      have h1 : r₁.mentions = r₂.mentions := hm
      have h2 : r₁.avgConfidence = r₂.avgConfidence := ha
      have h3 : r₁.entry = r₂.entry := Option.some_inj.mp he
      simp only [Option.map]
      unfold finalScore
      rw [h1, h2, h3]

/-- **Claim C2 (amended)**: merging a finite collection of validated
matches is order-insensitive in every field that does not record arrival
order: for any two permutations of the same `(match, context)` pairs applied
to the same starting map — with matches carrying a consistent catalog entry
per id, as catalog lookups do — every slot of the two resulting maps agrees
on occupancy, `mentions`, `totalConfidence`, `avgConfidence`, the catalog
entry, `finalScore`, the multiset of `sources`, and the `subreddits` and
`redditUrls` sets.  (The order *within* the `sources`, `redditUrls` and
bounded `contexts` lists does depend on arrival order; see the
counterexample.) -/
theorem applyMerges_order_insensitive
    (l₁ l₂ : List (ValidatedMatch × Context)) (m : RecMap)
    (hperm : l₁.Perm l₂)
    (hcons : ∀ p ∈ l₁, ∀ q ∈ l₁,
      p.1.tmdbMatch.id = q.1.tmdbMatch.id → p.1.tmdbMatch = q.1.tmdbMatch)
    (id : ℕ) :
    RecAgree (applyMerges l₁ m id) (applyMerges l₂ m id) := by
  rw [applyMerges_apply, applyMerges_apply]
  have hp : (mergesFor l₁ id).Perm (mergesFor l₂ id) := hperm.filter _
  rcases hps : mergesFor l₁ id with _ | ⟨p₁, tl₁⟩
  · rw [hps] at hp
    have h2 : mergesFor l₂ id = [] := List.Perm.eq_nil hp.symm
    rw [h2, updSeq_nil]
    exact recAgree_refl _
  · rw [hps] at hp
    rcases hqs : mergesFor l₂ id with _ | ⟨p₂, tl₂⟩
    · rw [hqs] at hp
      exact absurd (List.Perm.eq_nil hp) (by simp)
    · rw [hqs] at hp
      have hmem₁ : p₁ ∈ l₁ ∧ p₁.1.tmdbMatch.id = id := by
        have h : p₁ ∈ mergesFor l₁ id := by
          rw [hps]
          exact List.mem_cons_self _ _
        have h' := List.mem_filter.mp h
        exact ⟨h'.1, (of_decide_eq_true h'.2).1⟩
      have hmem₂ : p₂ ∈ l₁ ∧ p₂.1.tmdbMatch.id = id := by
        have h : p₂ ∈ mergesFor l₁ id := by
          rw [hps]
          exact hp.symm.subset (List.mem_cons_self _ _)
        have h' := List.mem_filter.mp h
        exact ⟨h'.1, (of_decide_eq_true h'.2).1⟩
      have hnone₁ : updSeq (p₁ :: tl₁) (m id) ≠ none := updSeq_ne_none _ _ _
      have hnone₂ : updSeq (p₂ :: tl₂) (m id) ≠ none := updSeq_ne_none _ _ _
      have hnoneiff : (updSeq (p₁ :: tl₁) (m id) = none ↔
          updSeq (p₂ :: tl₂) (m id) = none) := iff_of_false hnone₁ hnone₂
      have hmen : oMentions (updSeq (p₁ :: tl₁) (m id)) =
          oMentions (updSeq (p₂ :: tl₂) (m id)) := by
        rw [updSeq_mentions, updSeq_mentions, hp.length_eq]
      have htot : oTotal (updSeq (p₁ :: tl₁) (m id)) =
          oTotal (updSeq (p₂ :: tl₂) (m id)) := by
        rw [updSeq_total, updSeq_total,
          (hp.map (fun p => p.1.confidence)).sum_eq]
      have hentry : oEntry (updSeq (p₁ :: tl₁) (m id)) =
          oEntry (updSeq (p₂ :: tl₂) (m id)) := by
        cases hm0 : m id with
        | some r => rw [updSeq_entry_some, updSeq_entry_some]
        | none =>
          rw [updSeq_entry_none, updSeq_entry_none]
          have : p₁.1.tmdbMatch = p₂.1.tmdbMatch :=
            hcons p₁ hmem₁.1 p₂ hmem₂.1 (by rw [hmem₁.2, hmem₂.2])
          rw [this]
      have havg : oAvg (updSeq (p₁ :: tl₁) (m id)) =
          oAvg (updSeq (p₂ :: tl₂) (m id)) := by
        rw [updSeq_avg, updSeq_avg, hmen, htot]
      have hsrc : (oSources (updSeq (p₁ :: tl₁) (m id))).Perm
          (oSources (updSeq (p₂ :: tl₂) (m id))) := by
        rw [updSeq_sources, updSeq_sources]
        exact List.Perm.append_left _ (hp.map _)
      have hsubs : (oSubs (updSeq (p₁ :: tl₁) (m id))).toFinset =
          (oSubs (updSeq (p₂ :: tl₂) (m id))).toFinset := by
        rw [updSeq_subs, updSeq_subs,
          List.toFinset_eq_of_perm _ _ (hp.map (fun p => p.2.subreddit))]
      have hurls : (oUrls (updSeq (p₁ :: tl₁) (m id))).toFinset =
          (oUrls (updSeq (p₂ :: tl₂) (m id))).toFinset := by
        rw [updSeq_urls, updSeq_urls,
          List.toFinset_eq_of_perm _ _ (hp.map (fun p => p.2.url))]
      exact ⟨hnoneiff, hmen, htot, havg, hentry, hsrc, hsubs, hurls,
        finalScore_map_eq _ _ hnoneiff hmen havg hentry⟩

/-- **Claim C2 (counterexample)**: swapping the arrival order of two merges
for the same catalog id yields *different* resulting maps — the `sources`
list of the stored record records the arrival order (`["comment",
"ai-batch"]` versus `["ai-batch", "comment"]`), so the merge is not
order-independent in every field, as the claim asserts. -/
theorem applyMerges_order_dependent_sources :
    applyMerges [(cxMatch, cxCtxA), (cxMatch, cxCtxB)] emptyRecMap 949 ≠
      applyMerges [(cxMatch, cxCtxB), (cxMatch, cxCtxA)] emptyRecMap 949 := by
  intro h
  have h1 : Option.map (fun r => r.sources)
      (applyMerges [(cxMatch, cxCtxA), (cxMatch, cxCtxB)] emptyRecMap 949) =
      some ["comment", "ai-batch"] := rfl
  have h2 : Option.map (fun r => r.sources)
      (applyMerges [(cxMatch, cxCtxB), (cxMatch, cxCtxA)] emptyRecMap 949) =
      some ["ai-batch", "comment"] := rfl
  rw [h, h2] at h1
  exact absurd h1 (by decide)

/-- Witness for the amended C2: the two orders of the counterexample's pair
still agree on all order-insensitive fields. -/
theorem applyMerges_order_insensitive_witness :
    RecAgree
      (applyMerges [(cxMatch, cxCtxA), (cxMatch, cxCtxB)] emptyRecMap 949)
      (applyMerges [(cxMatch, cxCtxB), (cxMatch, cxCtxA)] emptyRecMap 949) :=
  applyMerges_order_insensitive _ _ emptyRecMap
    (List.Perm.swap (cxMatch, cxCtxB) (cxMatch, cxCtxA) [])
    (by
      intro p hp q hq _
      simp only [List.mem_cons, List.not_mem_nil, or_false] at hp hq
      rcases hp with rfl | rfl <;> rcases hq with rfl | rfl <;> rfl)
    949

end GotNext
